import Mathlib

/-!
# Verification of the STC scheduler core (`src/stc_scheduler.rs`)

Shallow embedding of the scheduler's data model and operations.

Modelling conventions:
* Rust `f64` values are embedded as `ℚ` (the arithmetic the code performs —
  sums, products, divisions by positive constants, `clamp`, comparisons — is
  exact over the rationals; NaN, which `f64` adds, is modelled separately
  where a claim is about it, via `Option ℚ`).
* `std::time::Instant` is embedded as a rational timestamp; a single
  synchronous call executes at one time point, so the two `Instant::now()`
  calls inside one status update return the same instant (the code performs
  no blocking work between them).  `duration_since` saturates at zero for a
  `now` earlier than `last_seen`; since the saturated and the signed elapsed
  value select the same branch of every comparison against the positive
  thresholds 10 and 30, we embed elapsed time as plain subtraction.
* The `DashMap<String, NodeContext>` registry is embedded as a
  `List NodeContext`; a per-key `get_mut` update becomes a `map` that
  rewrites the entries carrying the key (DashMap keys are unique, so at most
  one entry is rewritten).
* `uuid::Uuid::new_v4()` is embedded by passing a generator `fresh : ℕ → String`
  for the successive identifiers a call generates; uniqueness of the emitted
  identifiers is relative to injectivity of the generator.
* Integer widths (`u32`, `u64`) are embedded as `ℕ`: none of the embedded
  arithmetic can overflow (the only integer arithmetic is
  `pcie_lanes * pcie_gen`, immediately widened to `f64` by the source).
-/

/-- `NodeTier` enum of `stc_scheduler.rs`. -/
inductive NodeTier where
  | Offline
  | Tier3Mobile
  | Tier2Standard
  | Tier1HighPerformance
deriving DecidableEq, Repr

/-- `HealthState` enum of `stc_scheduler.rs`. -/
inductive HealthState where
  | Healthy
  | Degraded
  | Suspect
  | Quarantined
deriving DecidableEq, Repr

/-- `NodeContext` of `stc_scheduler.rs` (one per registered node). -/
structure NodeContext where
  node_id : String
  device_model : String
  cpu_cores : ℕ
  total_ram_mb : ℕ
  has_npu : Bool
  has_cuda : Bool
  has_rocm : Bool
  has_intel_arc : Bool
  pcie_lanes : ℕ
  pcie_gen : ℕ
  memory_bandwidth_gbps : ℚ
  compute_units : ℕ
  current_tier : NodeTier
  last_seen : ℚ
  cpu_load : ℚ
  gpu_load : ℚ
  is_charging : Bool
  network_type : String
  user_allowed : Bool
  net_rtt_ema_ms : ℚ
  health_state : HealthState
  failure_count : ℕ
  is_quarantined : Bool
deriving DecidableEq, Repr

/-- `OverloadThresholds` of `stc_scheduler.rs`. -/
structure OverloadThresholds where
  cpu_max : ℚ
  gpu_max : ℚ
  vram_pressure_max : ℚ
deriving DecidableEq, Repr

/-- `ServerStatus` of `stc_scheduler.rs`. -/
structure ServerStatus where
  cpu_load : ℚ
  gpu_load : ℚ
  vram_usage_ratio : ℚ
deriving DecidableEq, Repr

/-- Modelled from the spec: the command kinds of the transport-defined
command envelope (`crate::lib::stc`, not under `src/`); §6 lists
ShardTask, OffloadAccepted and StreamInit. -/
inductive CommandType where
  | ShardTask
  | OffloadAccepted
  | StreamInit
deriving DecidableEq, Repr

/-- Modelled from the spec: the `Shard` payload of the command envelope
(§6): shard identifier, index/total, data bytes, downstream container tag,
buffer tag.  Bytes are embedded as `List ℕ`. -/
structure ShardPayload where
  shard_id : String
  shard_index : ℕ
  shard_total : ℕ
  data : List ℕ
  next_container : String
  buffer_tag : String
deriving DecidableEq, Repr

/-- Modelled from the spec: the payload alternatives of the command
envelope (§6): a shard payload, or nothing for acknowledgement-only
commands (the latter is the `none` of the `Option` in `ServerCommand`). -/
inductive ServerPayload where
  | Shard (p : ShardPayload)
deriving DecidableEq, Repr

/-- Modelled from the spec: the outbound command envelope
`{kind, task_id, payload?}` of §6. -/
structure ServerCommand where
  type : CommandType
  task_id : String
  payload : Option ServerPayload
deriving DecidableEq, Repr

/-- Rust `f64::clamp(lo, hi)` over `ℚ` (for `lo ≤ hi`, on non-NaN input,
Rust's clamp returns `max lo (min x hi)`). -/
def rclamp (x lo hi : ℚ) : ℚ := max lo (min x hi)

/-- `calculate_raw_opi` (lines 141–151): hardware-only weighted sum, with a
1.1× bonus when the ROCm flag is set. -/
def calculate_raw_opi (node : NodeContext) : ℚ :=
  let score : ℚ :=
    ((node.total_ram_mb : ℚ) / 1024) * 5
      + node.memory_bandwidth_gbps / 10
      + ((node.pcie_lanes * node.pcie_gen : ℕ) : ℚ) * 2
      + (node.compute_units : ℚ) * 0.5
  if node.has_rocm then score * 1.1 else score

/-- `determine_tier` (lines 153–161). -/
def determine_tier (score : ℚ) : NodeTier :=
  if score ≥ 200 then NodeTier.Tier1HighPerformance
  else if score ≥ 80 then NodeTier.Tier2Standard
  else NodeTier.Tier3Mobile

/-- `update_health_state` (lines 223–248): recompute the health
classification from elapsed time since `last_seen` and the smoothed RTT.
`now` is the instant the recompute runs at. -/
def update_health_state (now : ℚ) (node : NodeContext) : NodeContext :=
  let since_seen := now - node.last_seen
  if since_seen > 30 then
    { node with health_state := HealthState.Quarantined, is_quarantined := true }
  else if since_seen > 10 then
    { node with health_state := HealthState.Suspect }
  else if node.net_rtt_ema_ms > 150 then
    { node with health_state := HealthState.Degraded, is_quarantined := false }
  else
    { node with health_state := HealthState.Healthy, is_quarantined := false }

/-- The body of `update_node_status_with_rtt` (lines 186–217) applied to the
entry found under the identifier: dynamic-field write, `last_seen` reset,
RTT EMA update (skipped for a non-positive sample), health recompute, tier
recompute.  The source assigns the tier only when it changed; assigning it
unconditionally yields the same state. -/
def apply_status_update (now cpu gpu : ℚ) (charging : Bool) (net : String)
    (allowed : Bool) (rtt_ms : ℚ) (node : NodeContext) : NodeContext :=
  let node := { node with
    cpu_load := cpu, gpu_load := gpu, is_charging := charging,
    network_type := net, user_allowed := allowed, last_seen := now }
  let gamma : ℚ := 0.2
  let node :=
    if rtt_ms > 0 then
      if node.net_rtt_ema_ms ≤ 0 then { node with net_rtt_ema_ms := rtt_ms }
      else { node with net_rtt_ema_ms := gamma * rtt_ms + (1 - gamma) * node.net_rtt_ema_ms }
    else node
  let node := update_health_state now node
  let score := calculate_raw_opi node
  { node with current_tier := determine_tier score }

/-- `update_node_status_with_rtt` (lines 176–221) over the registry: the
entry under `id` is updated in place; an unknown identifier only logs a
warning (a no-op on the registry). -/
def update_node_status_with_rtt (now : ℚ) (id : String) (cpu gpu : ℚ)
    (charging : Bool) (net : String) (allowed : Bool) (rtt_ms : ℚ)
    (nodes : List NodeContext) : List NodeContext :=
  nodes.map fun n =>
    if n.node_id = id then apply_status_update now cpu gpu charging net allowed rtt_ms n
    else n

/-- `update_node_status` (lines 163–174): the RTT-less legacy form, calling
the RTT-aware form with `rtt_ms = 0`. -/
def update_node_status (now : ℚ) (id : String) (cpu gpu : ℚ)
    (charging : Bool) (net : String) (allowed : Bool)
    (nodes : List NodeContext) : List NodeContext :=
  update_node_status_with_rtt now id cpu gpu charging net allowed 0 nodes

/-- `calculate_net_factor` (lines 250–262). -/
def calculate_net_factor (node : NodeContext) : ℚ :=
  let base_rtt_ms : ℚ := 10
  let max_penalty : ℚ := 10
  let rtt := if node.net_rtt_ema_ms ≤ 0 then base_rtt_ms else node.net_rtt_ema_ms
  rclamp (rtt / base_rtt_ms) 1 max_penalty

/-- `calculate_load_factor` (lines 264–267). -/
def calculate_load_factor (node : NodeContext) : ℚ :=
  1 - rclamp (max node.gpu_load node.cpu_load) 0 1

/-- `calculate_effective_opi` (lines 269–281). -/
def calculate_effective_opi (node : NodeContext) : ℚ :=
  if node.is_quarantined ∨ node.health_state = HealthState.Quarantined
      ∨ node.health_state = HealthState.Suspect then 0
  else
    calculate_raw_opi node / calculate_net_factor node * calculate_load_factor node

/-- The eligibility filter of `find_smart_candidates` (lines 309–336):
consenting, not Offline, neither load above 0.9, not quarantined, positive
effective score; keeps `(node_id, effective score)` pairs in registry
iteration order. -/
def eligible_pairs (nodes : List NodeContext) : List (String × ℚ) :=
  nodes.filterMap fun node =>
    if ¬ node.user_allowed ∨ node.current_tier = NodeTier.Offline then none
    else if node.cpu_load > 0.9 ∨ node.gpu_load > 0.9 then none
    else if node.is_quarantined then none
    else
      let eff_opi := calculate_effective_opi node
      if eff_opi ≤ 0 then none else some (node.node_id, eff_opi)

/-- The comparator of the descending `sort_by` at line 338, as the "may
precede" Boolean relation of a stable merge sort (Rust's `sort_by` is a
stable merge sort; `a` may precede `b` iff `b.1 ≤ a.1` on scores). -/
def desc_by_score (a b : String × ℚ) : Bool := b.2 ≤ a.2

/-- `find_smart_candidates` (lines 308–340): eligible pairs, sorted
descending by effective score, identifiers only. -/
def find_smart_candidates (nodes : List NodeContext) : List String :=
  ((eligible_pairs nodes).mergeSort desc_by_score).map Prod.fst

/-- `create_shard_command` (lines 342–359), with the generated UUID passed
in as `shard_id`. -/
def create_shard_command (shard_id : String) : ServerCommand :=
  { type := CommandType.ShardTask
    task_id := shard_id
    payload := some (ServerPayload.Shard
      { shard_id := shard_id
        shard_index := 0
        shard_total := 1
        data := []
        next_container := "Programming"
        buffer_tag := "default" }) }

/-- `check_server_overload_and_shard` (lines 292–306): when the server's CPU
load exceeds `cpu_max` or its VRAM ratio exceeds `vram_pressure_max`, emit
one shard command to each of the first three candidates; `fresh k` is the
`k`-th UUID the call generates. -/
def check_server_overload_and_shard (th : OverloadThresholds)
    (status : ServerStatus) (nodes : List NodeContext)
    (fresh : ℕ → String) : List (String × ServerCommand) :=
  if status.cpu_load > th.cpu_max ∨ status.vram_usage_ratio > th.vram_pressure_max then
    ((find_smart_candidates nodes).take 3).enum.map
      fun ki => (ki.2, create_shard_command (fresh ki.1))
  else []

/-! ## NaN-aware model of the `sort_by` comparison (claim about the
`partial_cmp(..).unwrap()` at line 338)

`FloatQ` embeds an `f64` score as `some q` for a numeric value and `none`
for NaN.  `pcmp_desc` embeds `|a, b| b.1.partial_cmp(&a.1)` reduced to the
"may precede" Boolean a merge sort consumes; it fails (returns `none`,
the model of the `unwrap` panic) exactly when an operand is NaN.
`osort_by` is the sort in the failure monad: any failing comparison aborts
the whole sort, as the panic would. -/

/-- An `f64` score: `some q` for a numeric value, `none` for NaN. -/
abbrev FloatQ := Option ℚ

/-- The descending comparator of line 338 over NaN-aware scores:
`none` models the `unwrap` panic on `partial_cmp` returning `None`. -/
def pcmp_desc (a b : String × FloatQ) : Option Bool :=
  match a.2, b.2 with
  | some x, some y => some (decide (y ≤ x))
  | _, _ => none

/-- Merge two lists under a failure-monad comparator; a failing comparison
aborts the merge. -/
def omerge (cmp : α → α → Option Bool) : List α → List α → Option (List α)
  | [], ys => some ys
  | x :: xs, [] => some (x :: xs)
  | x :: xs, y :: ys =>
    match cmp x y with
    | none => none
    | some true => (omerge cmp xs (y :: ys)).map (x :: ·)
    | some false => (omerge cmp (x :: xs) ys).map (y :: ·)
termination_by xs ys => xs.length + ys.length

/-- Merge sort in the failure monad: the model of `sort_by` with a panicking
comparator (Rust's `sort_by` is a merge sort). -/
def osort_by (cmp : α → α → Option Bool) (l : List α) : Option (List α) :=
  if _h : l.length ≤ 1 then some l
  else
    let n := l.length / 2
    match osort_by cmp (l.take n), osort_by cmp (l.drop n) with
    | some a, some b => omerge cmp a b
    | _, _ => none
termination_by l.length
decreasing_by
  · simp only [List.length_take]
    omega
  · simp only [List.length_drop]
    omega

/-- The candidate list of `find_smart_candidates` with its scores viewed as
NaN-aware `f64` values (they are numeric: the scoring pipeline over the
rationals produces no NaN). -/
def eligible_pairs_float (nodes : List NodeContext) : List (String × FloatQ) :=
  (eligible_pairs nodes).map fun p => (p.1, some p.2)

/-! ## Concrete states used by witnesses and counterexamples -/

/-- A concrete registered node (Healthy, fresh contact, no RTT sample). -/
def exNode : NodeContext :=
  { node_id := "n1", device_model := "m", cpu_cores := 8, total_ram_mb := 16384,
    has_npu := false, has_cuda := false, has_rocm := false, has_intel_arc := false,
    pcie_lanes := 16, pcie_gen := 4, memory_bandwidth_gbps := 100, compute_units := 32,
    current_tier := NodeTier.Tier2Standard, last_seen := 0, cpu_load := 1/2,
    gpu_load := 1/5, is_charging := true, network_type := "wifi", user_allowed := true,
    net_rtt_ema_ms := 0, health_state := HealthState.Healthy, failure_count := 0,
    is_quarantined := false }

/-- A node that was quarantined (flag still set) and last seen 20 s ago at
`now = 20`. -/
def exStale : NodeContext :=
  { exNode with is_quarantined := true, health_state := HealthState.Quarantined }

/-- A node with a Degraded classification driven by a 200 ms RTT estimate. -/
def exDegraded : NodeContext :=
  { exNode with
    net_rtt_ema_ms := 200
    health_state := HealthState.Degraded }

/-- A node classified Suspect. -/
def exSuspect : NodeContext :=
  { exNode with health_state := HealthState.Suspect }

/-- Concrete thresholds `{cpu_max = 0.85, gpu_max = 0, vram_pressure_max = 0.9}`. -/
def exThresholds : OverloadThresholds :=
  { cpu_max := 85/100, gpu_max := 0, vram_pressure_max := 9/10 }

/-- Concrete master status `{cpu = 0.9, gpu = 0, vram = 0.5}`. -/
def exStatus : ServerStatus :=
  { cpu_load := 9/10, gpu_load := 0, vram_usage_ratio := 1/2 }

/-- A concrete injective identifier generator standing in for the UUID
source: the `k`-th identifier is the string of `k` letters `a`. -/
def exFresh (k : ℕ) : String := String.mk (List.replicate k 'a')

/-! ## Shared helper lemmas -/

theorem update_health_state_net_rtt (now : ℚ) (n : NodeContext) :
    (update_health_state now n).net_rtt_ema_ms = n.net_rtt_ema_ms := by
  simp only [update_health_state]
  split_ifs <;> rfl

theorem update_health_state_last_seen (now : ℚ) (n : NodeContext) :
    (update_health_state now n).last_seen = n.last_seen := by
  simp only [update_health_state]
  split_ifs <;> rfl

/-- The health recompute on a node whose `last_seen` is the current instant
takes the `elapsed ≤ 10` branch: Healthy or Degraded, flag cleared. -/
theorem update_health_state_fresh (now : ℚ) (n : NodeContext)
    (h : n.last_seen = now) :
    ((update_health_state now n).health_state = HealthState.Healthy ∨
      (update_health_state now n).health_state = HealthState.Degraded) ∧
    (update_health_state now n).is_quarantined = false := by
  simp only [update_health_state]
  rw [h, sub_self]
  split_ifs with h1 h2 h3
  · exact absurd h1 (by norm_num)
  · exact absurd h2 (by norm_num)
  · exact ⟨Or.inr rfl, rfl⟩
  · exact ⟨Or.inl rfl, rfl⟩

/-! ## Claims -/

/-- C7: `determine_tier` returns Tier1HighPerformance iff `score ≥ 200`,
Tier2Standard iff `80 ≤ score < 200`, Tier3Mobile iff `score < 80`, and
never Offline. -/
theorem c7_tier_boundaries (s : ℚ) :
    (determine_tier s = NodeTier.Tier1HighPerformance ↔ 200 ≤ s) ∧
    (determine_tier s = NodeTier.Tier2Standard ↔ 80 ≤ s ∧ s < 200) ∧
    (determine_tier s = NodeTier.Tier3Mobile ↔ s < 80) ∧
    determine_tier s ≠ NodeTier.Offline := by
  unfold determine_tier
  split_ifs with h1 h2 <;> refine ⟨?_, ?_, ?_, ?_⟩ <;>
    simp_all <;> linarith

/-- C7 witness: the spec's boundary values. -/
theorem c7_tier_boundaries_witness :
    (determine_tier (199999/1000) = NodeTier.Tier2Standard ↔
      80 ≤ (199999/1000 : ℚ) ∧ (199999/1000 : ℚ) < 200) ∧
    (determine_tier 200 = NodeTier.Tier1HighPerformance ↔ 200 ≤ (200 : ℚ)) ∧
    (determine_tier (79999/1000) = NodeTier.Tier3Mobile ↔ (79999/1000 : ℚ) < 80) ∧
    determine_tier 80 ≠ NodeTier.Offline :=
  ⟨(c7_tier_boundaries (199999/1000)).2.1, (c7_tier_boundaries 200).1,
    (c7_tier_boundaries (79999/1000)).2.2.1, (c7_tier_boundaries 80).2.2.2⟩

/-- C6: the raw score is the stated hardware-only weighted sum with a
1.1× ROCm multiplier; it depends only on the six hardware inputs, is
monotone non-decreasing in each numeric input, and enabling ROCm multiplies
it by exactly 1.1. -/
theorem c6_raw_score :
    (∀ n : NodeContext,
      calculate_raw_opi n =
        (if n.has_rocm then (1.1 : ℚ) else 1) *
          (((n.total_ram_mb : ℚ) / 1024) * 5 + n.memory_bandwidth_gbps / 10
            + ((n.pcie_lanes * n.pcie_gen : ℕ) : ℚ) * 2
            + (n.compute_units : ℚ) * 0.5)) ∧
    (∀ n m : NodeContext, n.total_ram_mb = m.total_ram_mb →
      n.memory_bandwidth_gbps = m.memory_bandwidth_gbps →
      n.pcie_lanes = m.pcie_lanes → n.pcie_gen = m.pcie_gen →
      n.compute_units = m.compute_units → n.has_rocm = m.has_rocm →
      calculate_raw_opi n = calculate_raw_opi m) ∧
    (∀ (n : NodeContext) (r r' : ℕ), r ≤ r' →
      calculate_raw_opi { n with total_ram_mb := r } ≤
        calculate_raw_opi { n with total_ram_mb := r' }) ∧
    (∀ (n : NodeContext) (b b' : ℚ), b ≤ b' →
      calculate_raw_opi { n with memory_bandwidth_gbps := b } ≤
        calculate_raw_opi { n with memory_bandwidth_gbps := b' }) ∧
    (∀ (n : NodeContext) (l l' : ℕ), l ≤ l' →
      calculate_raw_opi { n with pcie_lanes := l } ≤
        calculate_raw_opi { n with pcie_lanes := l' }) ∧
    (∀ (n : NodeContext) (g g' : ℕ), g ≤ g' →
      calculate_raw_opi { n with pcie_gen := g } ≤
        calculate_raw_opi { n with pcie_gen := g' }) ∧
    (∀ (n : NodeContext) (c c' : ℕ), c ≤ c' →
      calculate_raw_opi { n with compute_units := c } ≤
        calculate_raw_opi { n with compute_units := c' }) ∧
    (∀ n : NodeContext,
      calculate_raw_opi { n with has_rocm := true } =
        1.1 * calculate_raw_opi { n with has_rocm := false }) := by
  refine ⟨?_, ?_, ?_, ?_, ?_, ?_, ?_, ?_⟩
  · intro n
    simp only [calculate_raw_opi]
    split_ifs <;> ring
  · intro n m h1 h2 h3 h4 h5 h6
    simp only [calculate_raw_opi, h1, h2, h3, h4, h5, h6]
  · intro n r r' h
    simp only [calculate_raw_opi]
    split_ifs <;> gcongr
  · intro n b b' h
    simp only [calculate_raw_opi]
    split_ifs <;> gcongr
  · intro n l l' h
    simp only [calculate_raw_opi]
    split_ifs <;> gcongr
  · intro n g g' h
    simp only [calculate_raw_opi]
    split_ifs <;> gcongr
  · intro n c c' h
    simp only [calculate_raw_opi]
    split_ifs <;> gcongr
  · intro n
    simp only [calculate_raw_opi]
    split_ifs with h1 h2
    · exact absurd h2 (by simp)
    · ring
    · exact absurd h1 (by simp)
    · exact absurd h1 (by simp)

/-- C6 witness: monotonicity and the ROCm multiplier at concrete nodes. -/
theorem c6_raw_score_witness :
    ((1024 : ℕ) ≤ 2048 ∧
      calculate_raw_opi { exNode with total_ram_mb := 1024 } ≤
        calculate_raw_opi { exNode with total_ram_mb := 2048 }) ∧
    ((100 : ℚ) ≤ 200 ∧
      calculate_raw_opi { exNode with memory_bandwidth_gbps := 100 } ≤
        calculate_raw_opi { exNode with memory_bandwidth_gbps := 200 }) ∧
    ((8 : ℕ) ≤ 16 ∧
      calculate_raw_opi { exNode with pcie_lanes := 8 } ≤
        calculate_raw_opi { exNode with pcie_lanes := 16 }) ∧
    ((3 : ℕ) ≤ 4 ∧
      calculate_raw_opi { exNode with pcie_gen := 3 } ≤
        calculate_raw_opi { exNode with pcie_gen := 4 }) ∧
    ((32 : ℕ) ≤ 64 ∧
      calculate_raw_opi { exNode with compute_units := 32 } ≤
        calculate_raw_opi { exNode with compute_units := 64 }) ∧
    calculate_raw_opi { exNode with has_rocm := true } =
      1.1 * calculate_raw_opi { exNode with has_rocm := false } :=
  ⟨⟨by norm_num, c6_raw_score.2.2.1 exNode 1024 2048 (by norm_num)⟩,
    ⟨by norm_num, c6_raw_score.2.2.2.1 exNode 100 200 (by norm_num)⟩,
    ⟨by norm_num, c6_raw_score.2.2.2.2.1 exNode 8 16 (by norm_num)⟩,
    ⟨by norm_num, c6_raw_score.2.2.2.2.2.1 exNode 3 4 (by norm_num)⟩,
    ⟨by norm_num, c6_raw_score.2.2.2.2.2.2.1 exNode 32 64 (by norm_num)⟩,
    c6_raw_score.2.2.2.2.2.2.2 exNode⟩

/-- C4: the effective score is 0 for a quarantined/Quarantined/Suspect
node and `raw / net_factor * load_factor` otherwise; the net factor is 1
for a non-positive RTT estimate and `clamp(rtt/10, 1, 10)` otherwise,
always in `[1, 10]`; the load factor is `1 - clamp(max(cpu, gpu), 0, 1)`,
always in `[0, 1]`; a Degraded (non-quarantined) node is not zeroed. -/
theorem c4_effective_score (n : NodeContext) :
    ((n.is_quarantined ∨ n.health_state = HealthState.Quarantined ∨
        n.health_state = HealthState.Suspect) → calculate_effective_opi n = 0) ∧
    (¬ (n.is_quarantined ∨ n.health_state = HealthState.Quarantined ∨
        n.health_state = HealthState.Suspect) →
      calculate_effective_opi n =
        calculate_raw_opi n / calculate_net_factor n * calculate_load_factor n) ∧
    (n.net_rtt_ema_ms ≤ 0 → calculate_net_factor n = 1) ∧
    (0 < n.net_rtt_ema_ms →
      calculate_net_factor n = rclamp (n.net_rtt_ema_ms / 10) 1 10) ∧
    (1 ≤ calculate_net_factor n ∧ calculate_net_factor n ≤ 10) ∧
    calculate_load_factor n = 1 - rclamp (max n.cpu_load n.gpu_load) 0 1 ∧
    (0 ≤ calculate_load_factor n ∧ calculate_load_factor n ≤ 1) ∧
    (n.health_state = HealthState.Degraded → ¬ n.is_quarantined →
      calculate_effective_opi n =
        calculate_raw_opi n / calculate_net_factor n * calculate_load_factor n) := by
  have hnet1 : n.net_rtt_ema_ms ≤ 0 → calculate_net_factor n = 1 := by
    intro h
    simp only [calculate_net_factor, if_pos h, rclamp]
    norm_num
  have hnet2 : 0 < n.net_rtt_ema_ms →
      calculate_net_factor n = rclamp (n.net_rtt_ema_ms / 10) 1 10 := by
    intro h
    simp only [calculate_net_factor, if_neg (not_le.mpr h)]
  refine ⟨?_, ?_, hnet1, hnet2, ⟨?_, ?_⟩, ?_, ⟨?_, ?_⟩, ?_⟩
  · intro h
    simp only [calculate_effective_opi, if_pos h]
  · intro h
    simp only [calculate_effective_opi, if_neg h]
  · simp only [calculate_net_factor, rclamp]
    exact le_max_left _ _
  · simp only [calculate_net_factor, rclamp]
    exact max_le (by norm_num) (min_le_right _ _)
  · simp only [calculate_load_factor, rclamp, max_comm n.gpu_load n.cpu_load]
  · simp only [calculate_load_factor, rclamp]
    have : min (max n.gpu_load n.cpu_load) 1 ≤ 1 := min_le_right _ _
    have : max (0 : ℚ) (min (max n.gpu_load n.cpu_load) 1) ≤ 1 :=
      max_le (by norm_num) this
    linarith
  · simp only [calculate_load_factor, rclamp]
    have : (0 : ℚ) ≤ max 0 (min (max n.gpu_load n.cpu_load) 1) := le_max_left _ _
    linarith
  · intro hdeg hq
    simp only [calculate_effective_opi]
    rw [if_neg]
    push_neg
    refine ⟨hq, ?_, ?_⟩ <;> simp [hdeg]

/-- C4 witness: an idle Degraded node (RTT 200 ms) is scored by the
formula, not zeroed; a Suspect node is zeroed. -/
theorem c4_effective_score_witness :
    (exDegraded.health_state = HealthState.Degraded ∧
      calculate_effective_opi exDegraded =
        calculate_raw_opi exDegraded / calculate_net_factor exDegraded *
          calculate_load_factor exDegraded) ∧
    calculate_effective_opi exSuspect = 0 :=
  ⟨⟨rfl, (c4_effective_score exDegraded).2.2.2.2.2.2.2 rfl
      (by simp [exDegraded, exNode])⟩,
    (c4_effective_score exSuspect).1 (Or.inr (Or.inr rfl))⟩

/-- The status-update body hands the health recompute a node whose
`last_seen` is the current instant; the recompute's health fields survive
the final tier write unchanged. -/
theorem apply_status_update_health (now cpu gpu : ℚ) (charging : Bool)
    (net : String) (allowed : Bool) (rtt : ℚ) (n : NodeContext) :
    ∃ m : NodeContext, m.last_seen = now ∧
      (apply_status_update now cpu gpu charging net allowed rtt n).health_state =
        (update_health_state now m).health_state ∧
      (apply_status_update now cpu gpu charging net allowed rtt n).is_quarantined =
        (update_health_state now m).is_quarantined := by
  simp only [apply_status_update]
  split_ifs <;> exact ⟨_, rfl, rfl, rfl⟩

/-- C1: the health classification recomputed on every status update
(`update_health_state`, the recompute `update_node_status_with_rtt`
invokes) follows the elapsed-time case split: elapsed > 30 s →
Quarantined with the flag forced true; 10 s < elapsed ≤ 30 s → Suspect;
elapsed ≤ 10 s → Degraded when the smoothed RTT exceeds 150 ms and
Healthy otherwise, both clearing the flag. -/
theorem c1_health_classification (now : ℚ) (n : NodeContext) :
    (30 < now - n.last_seen →
      (update_health_state now n).health_state = HealthState.Quarantined ∧
      (update_health_state now n).is_quarantined = true) ∧
    (10 < now - n.last_seen → now - n.last_seen ≤ 30 →
      (update_health_state now n).health_state = HealthState.Suspect) ∧
    (now - n.last_seen ≤ 10 → 150 < n.net_rtt_ema_ms →
      (update_health_state now n).health_state = HealthState.Degraded ∧
      (update_health_state now n).is_quarantined = false) ∧
    (now - n.last_seen ≤ 10 → n.net_rtt_ema_ms ≤ 150 →
      (update_health_state now n).health_state = HealthState.Healthy ∧
      (update_health_state now n).is_quarantined = false) := by
  refine ⟨fun h1 => ?_, fun h1 h2 => ?_, fun h1 h2 => ?_, fun h1 h2 => ?_⟩
  · simp only [update_health_state]
    rw [if_pos h1]
    exact ⟨rfl, rfl⟩
  · simp only [update_health_state]
    rw [if_neg (by linarith), if_pos h1]
  · simp only [update_health_state]
    rw [if_neg (by linarith), if_neg (by linarith), if_pos h2]
    exact ⟨rfl, rfl⟩
  · simp only [update_health_state]
    rw [if_neg (by linarith), if_neg (by linarith), if_neg (by linarith)]
    exact ⟨rfl, rfl⟩

/-- C1 witness: the spec's timing scenarios at concrete instants
(node last seen at 0). -/
theorem c1_health_classification_witness :
    ((30 : ℚ) < 31 - exNode.last_seen ∧
      (update_health_state 31 exNode).health_state = HealthState.Quarantined ∧
      (update_health_state 31 exNode).is_quarantined = true) ∧
    ((10 : ℚ) < 20 - exNode.last_seen ∧ 20 - exNode.last_seen ≤ 30 ∧
      (update_health_state 20 exNode).health_state = HealthState.Suspect) ∧
    (5 - exDegraded.last_seen ≤ 10 ∧ 150 < exDegraded.net_rtt_ema_ms ∧
      (update_health_state 5 exDegraded).health_state = HealthState.Degraded ∧
      (update_health_state 5 exDegraded).is_quarantined = false) ∧
    (5 - exNode.last_seen ≤ 10 ∧ exNode.net_rtt_ema_ms ≤ 150 ∧
      (update_health_state 5 exNode).health_state = HealthState.Healthy ∧
      (update_health_state 5 exNode).is_quarantined = false) :=
  ⟨⟨by norm_num [exNode], (c1_health_classification 31 exNode).1 (by norm_num [exNode])⟩,
    ⟨by norm_num [exNode], by norm_num [exNode],
      (c1_health_classification 20 exNode).2.1 (by norm_num [exNode]) (by norm_num [exNode])⟩,
    ⟨by norm_num [exDegraded, exNode], by norm_num [exDegraded, exNode],
      (c1_health_classification 5 exDegraded).2.2.1 (by norm_num [exDegraded, exNode])
        (by norm_num [exDegraded, exNode])⟩,
    ⟨by norm_num [exNode], by norm_num [exNode],
      (c1_health_classification 5 exNode).2.2.2 (by norm_num [exNode])
        (by norm_num [exNode])⟩⟩

/-- C2 counterexample: a previously quarantined node (flag still true)
recomputed 20 s after last contact lands in the Suspect branch, which
leaves the flag set: the flag is true while the health state is not
Quarantined. -/
theorem c2_counterexample :
    (update_health_state 20 exStale).is_quarantined = true ∧
    (update_health_state 20 exStale).health_state ≠ HealthState.Quarantined := by
  norm_num [update_health_state, exStale, exNode]
  decide

/-- C2 amended: after a health recompute that took the Quarantined branch
(elapsed > 30 s) or the Healthy/Degraded branch (elapsed ≤ 10 s), the flag
equals `health_state = Quarantined`; the Suspect branch (10 s < elapsed
≤ 30 s) leaves the flag at its prior value, so there the equality holds
only if the flag was already false.  At the recompute's single call site —
the status update, which first resets `last_seen` to the current instant —
the equality always holds. -/
theorem c2_quarantine_flag_invariant (now : ℚ) (n : NodeContext) :
    (now - n.last_seen ≤ 10 ∨ 30 < now - n.last_seen →
      ((update_health_state now n).is_quarantined ↔
        (update_health_state now n).health_state = HealthState.Quarantined)) ∧
    (10 < now - n.last_seen → now - n.last_seen ≤ 30 →
      (update_health_state now n).health_state = HealthState.Suspect ∧
      (update_health_state now n).is_quarantined = n.is_quarantined) ∧
    (∀ (cpu gpu : ℚ) (charging : Bool) (net : String) (allowed : Bool) (rtt : ℚ),
      ((apply_status_update now cpu gpu charging net allowed rtt n).is_quarantined ↔
        (apply_status_update now cpu gpu charging net allowed rtt n).health_state =
          HealthState.Quarantined)) := by
  refine ⟨fun h => ?_, fun h1 h2 => ?_, fun cpu gpu charging net allowed rtt => ?_⟩
  · rcases h with h | h
    · rcases lt_or_le 150 n.net_rtt_ema_ms with hr | hr
      · have := (c1_health_classification now n).2.2.1 h hr
        simp [this.1, this.2]
      · have := (c1_health_classification now n).2.2.2 h hr
        simp [this.1, this.2]
    · have := (c1_health_classification now n).1 h
      simp [this.1, this.2]
  · simp only [update_health_state]
    rw [if_neg (by linarith), if_pos h1]
    exact ⟨rfl, rfl⟩
  · obtain ⟨m, hm, hh, hq⟩ :=
      apply_status_update_health now cpu gpu charging net allowed rtt n
    obtain ⟨hhd, hflag⟩ := update_health_state_fresh now m hm
    rw [hh, hq, hflag]
    rcases hhd with h | h <;> simp [h]

/-- C2-amended witness: the Quarantined branch at 31 s, the Suspect branch
at 20 s (prior flag false), and a full status update on a stale quarantined
node. -/
theorem c2_quarantine_flag_invariant_witness :
    ((31 : ℚ) - exNode.last_seen > 30 ∧
      ((update_health_state 31 exNode).is_quarantined ↔
        (update_health_state 31 exNode).health_state = HealthState.Quarantined)) ∧
    ((10 : ℚ) < 20 - exNode.last_seen ∧ (20 : ℚ) - exNode.last_seen ≤ 30 ∧
      (update_health_state 20 exNode).health_state = HealthState.Suspect ∧
      (update_health_state 20 exNode).is_quarantined = exNode.is_quarantined) ∧
    ((apply_status_update 40 0 0 false "wifi" true 0 exStale).is_quarantined ↔
      (apply_status_update 40 0 0 false "wifi" true 0 exStale).health_state =
        HealthState.Quarantined) :=
  ⟨⟨by norm_num [exNode],
      (c2_quarantine_flag_invariant 31 exNode).1 (Or.inr (by norm_num [exNode]))⟩,
    ⟨by norm_num [exNode], by norm_num [exNode],
      (c2_quarantine_flag_invariant 20 exNode).2.1 (by norm_num [exNode])
        (by norm_num [exNode])⟩,
    (c2_quarantine_flag_invariant 40 exStale).2.2 0 0 false "wifi" true 0⟩

/-- C8: the RTT estimate after a status update with sample `s` is: `s`
itself when `s > 0` and no prior estimate existed (prior ≤ 0); the exact
smoothing `0.2*s + 0.8*prior` when `s > 0` and the prior estimate was
positive; and the unchanged prior estimate when `s ≤ 0`. -/
theorem c8_rtt_smoothing (now cpu gpu : ℚ) (charging : Bool) (net : String)
    (allowed : Bool) (s : ℚ) (n : NodeContext) :
    (0 < s → n.net_rtt_ema_ms ≤ 0 →
      (apply_status_update now cpu gpu charging net allowed s n).net_rtt_ema_ms = s) ∧
    (0 < s → 0 < n.net_rtt_ema_ms →
      (apply_status_update now cpu gpu charging net allowed s n).net_rtt_ema_ms =
        0.2 * s + 0.8 * n.net_rtt_ema_ms) ∧
    (s ≤ 0 →
      (apply_status_update now cpu gpu charging net allowed s n).net_rtt_ema_ms =
        n.net_rtt_ema_ms) := by
  refine ⟨fun hs he => ?_, fun hs he => ?_, fun hs => ?_⟩ <;>
    simp only [apply_status_update, update_health_state_net_rtt] <;>
    split_ifs <;> first
      | rfl
      | (exfalso; linarith)
      | norm_num

/-- C8 witness: the spec's smoothing scenario — bootstrap sample 100 sets
the estimate to 100; a sample of 50 on a prior estimate of 200 gives
exactly 0.2·50 + 0.8·200; a zero sample changes nothing. -/
theorem c8_rtt_smoothing_witness :
    ((0 : ℚ) < 100 ∧ exNode.net_rtt_ema_ms ≤ 0 ∧
      (apply_status_update 1 0 0 false "wifi" true 100 exNode).net_rtt_ema_ms = 100) ∧
    ((0 : ℚ) < 50 ∧ (0 : ℚ) < exDegraded.net_rtt_ema_ms ∧
      (apply_status_update 1 0 0 false "wifi" true 50 exDegraded).net_rtt_ema_ms =
        0.2 * 50 + 0.8 * exDegraded.net_rtt_ema_ms) ∧
    ((0 : ℚ) ≤ 0 ∧
      (apply_status_update 1 0 0 false "wifi" true 0 exDegraded).net_rtt_ema_ms =
        exDegraded.net_rtt_ema_ms) :=
  ⟨⟨by norm_num, by norm_num [exNode],
      (c8_rtt_smoothing 1 0 0 false "wifi" true 100 exNode).1 (by norm_num)
        (by norm_num [exNode])⟩,
    ⟨by norm_num, by norm_num [exDegraded, exNode],
      (c8_rtt_smoothing 1 0 0 false "wifi" true 50 exDegraded).2.1 (by norm_num)
        (by norm_num [exDegraded, exNode])⟩,
    ⟨le_refl 0,
      (c8_rtt_smoothing 1 0 0 false "wifi" true 0 exDegraded).2.2 (le_refl 0)⟩⟩

/-- C9: a status update naming an identifier no registry entry carries —
both the RTT-aware form and the RTT-less legacy form — returns the
registry unchanged (both embeddings are total functions: no failure, no
entry created). -/
theorem c9_unknown_id_noop (now : ℚ) (id : String) (cpu gpu : ℚ)
    (charging : Bool) (net : String) (allowed : Bool) (rtt : ℚ)
    (nodes : List NodeContext) (h : ∀ n ∈ nodes, n.node_id ≠ id) :
    update_node_status_with_rtt now id cpu gpu charging net allowed rtt nodes = nodes ∧
    update_node_status now id cpu gpu charging net allowed nodes = nodes := by
  have key : ∀ r : ℚ,
      update_node_status_with_rtt now id cpu gpu charging net allowed r nodes = nodes := by
    intro r
    unfold update_node_status_with_rtt
    have hfix : ∀ n ∈ nodes,
        (if n.node_id = id then
          apply_status_update now cpu gpu charging net allowed r n else n) = n :=
      fun n hn => if_neg (h n hn)
    rw [List.map_congr_left hfix, List.map_id']
  exact ⟨key rtt, key 0⟩

/-- C9 witness: updating identifier `n2` against a registry holding only
`n1` returns the registry unchanged under both entry points. -/
theorem c9_unknown_id_noop_witness :
    (∀ n ∈ [exNode], n.node_id ≠ "n2") ∧
    update_node_status_with_rtt 1 "n2" 0 0 false "wifi" true 5 [exNode] = [exNode] ∧
    update_node_status 1 "n2" 0 0 false "wifi" true [exNode] = [exNode] := by
  have h : ∀ n ∈ [exNode], n.node_id ≠ "n2" := by
    intro n hn
    rw [List.mem_singleton] at hn
    subst hn
    decide
  have hc := c9_unknown_id_noop 1 "n2" 0 0 false "wifi" true 5 [exNode] h
  exact ⟨h, hc.1, hc.2⟩

/-- C10: a status update on a registered identifier leaves the updated
entry Healthy or Degraded with the quarantine flag false, whatever its
prior state: `last_seen` is reset to the current instant before the health
recompute, so the Suspect and Quarantined branches cannot fire from this,
their only, call site; the updated entry is in the resulting registry. -/
theorem c10_update_keeps_node_fresh (now : ℚ) (id : String) (cpu gpu : ℚ)
    (charging : Bool) (net : String) (allowed : Bool) (rtt : ℚ)
    (nodes : List NodeContext) (n : NodeContext)
    (hmem : n ∈ nodes) (hid : n.node_id = id) :
    ((apply_status_update now cpu gpu charging net allowed rtt n).health_state =
        HealthState.Healthy ∨
      (apply_status_update now cpu gpu charging net allowed rtt n).health_state =
        HealthState.Degraded) ∧
    (apply_status_update now cpu gpu charging net allowed rtt n).is_quarantined = false ∧
    apply_status_update now cpu gpu charging net allowed rtt n ∈
      update_node_status_with_rtt now id cpu gpu charging net allowed rtt nodes := by
  obtain ⟨m, hm, hh, hq⟩ :=
    apply_status_update_health now cpu gpu charging net allowed rtt n
  obtain ⟨hhd, hflag⟩ := update_health_state_fresh now m hm
  refine ⟨?_, ?_, ?_⟩
  · rw [hh]
    exact hhd
  · rw [hq]
    exact hflag
  · unfold update_node_status_with_rtt
    have heq : apply_status_update now cpu gpu charging net allowed rtt n =
        (fun x => if x.node_id = id then
          apply_status_update now cpu gpu charging net allowed rtt x else x) n := by
      simp [hid]
    rw [heq]
    exact List.mem_map_of_mem _ hmem

/-- C10 witness: a status update on the registered stale quarantined node
leaves it Healthy/Degraded, un-quarantined, and in the registry. -/
theorem c10_update_keeps_node_fresh_witness :
    exStale ∈ [exStale] ∧ exStale.node_id = "n1" ∧
    ((apply_status_update 40 0 0 false "wifi" true 0 exStale).health_state =
        HealthState.Healthy ∨
      (apply_status_update 40 0 0 false "wifi" true 0 exStale).health_state =
        HealthState.Degraded) ∧
    (apply_status_update 40 0 0 false "wifi" true 0 exStale).is_quarantined = false ∧
    apply_status_update 40 0 0 false "wifi" true 0 exStale ∈
      update_node_status_with_rtt 40 "n1" 0 0 false "wifi" true 0 [exStale] := by
  have h := c10_update_keeps_node_fresh 40 "n1" 0 0 false "wifi" true 0
    [exStale] exStale (List.mem_singleton_self _) rfl
  exact ⟨List.mem_singleton_self _, rfl, h.1, h.2.1, h.2.2⟩

/-- C3: `check_server_overload_and_shard` returns a non-empty list iff the
server is overloaded (CPU above `cpu_max` or VRAM ratio above
`vram_pressure_max` — the GPU threshold is never consulted) and some node
is eligible; when overloaded it sends one shard command to each of the
first three candidates (the eligible nodes in descending effective-score
order), each command a `ShardTask` with a fresh identifier, shard index 0
of total 1 and an empty payload; identifiers are pairwise distinct when the
generator is injective. -/
theorem c3_overload_sharding (th : OverloadThresholds) (st : ServerStatus)
    (nodes : List NodeContext) (fresh : ℕ → String) :
    (check_server_overload_and_shard th st nodes fresh ≠ [] ↔
      ((st.cpu_load > th.cpu_max ∨ st.vram_usage_ratio > th.vram_pressure_max) ∧
        eligible_pairs nodes ≠ [])) ∧
    (¬ (st.cpu_load > th.cpu_max ∨ st.vram_usage_ratio > th.vram_pressure_max) →
      check_server_overload_and_shard th st nodes fresh = []) ∧
    ((st.cpu_load > th.cpu_max ∨ st.vram_usage_ratio > th.vram_pressure_max) →
      (check_server_overload_and_shard th st nodes fresh).map Prod.fst =
        (find_smart_candidates nodes).take 3) ∧
    List.Perm ((eligible_pairs nodes).mergeSort desc_by_score) (eligible_pairs nodes) ∧
    (((eligible_pairs nodes).mergeSort desc_by_score).Pairwise
      fun a b => b.2 ≤ a.2) ∧
    (∀ p ∈ check_server_overload_and_shard th st nodes fresh,
      ∃ sid, p.2 = create_shard_command sid ∧ p.2.type = CommandType.ShardTask ∧
        p.2.task_id = sid ∧
        p.2.payload = some (ServerPayload.Shard
          { shard_id := sid, shard_index := 0, shard_total := 1, data := [],
            next_container := "Programming", buffer_tag := "default" })) ∧
    (Function.Injective fresh →
      ((check_server_overload_and_shard th st nodes fresh).map
        fun p => p.2.task_id).Nodup) ∧
    (∀ g : ℚ, check_server_overload_and_shard { th with gpu_max := g } st nodes fresh =
      check_server_overload_and_shard th st nodes fresh) := by
  have hperm : List.Perm ((eligible_pairs nodes).mergeSort desc_by_score)
      (eligible_pairs nodes) :=
    List.mergeSort_perm _ _
  have htrans : ∀ a b c : String × ℚ,
      desc_by_score a b → desc_by_score b c → desc_by_score a c := by
    intro a b c hab hbc
    simp only [desc_by_score, decide_eq_true_eq] at *
    exact le_trans hbc hab
  have htotal : ∀ a b : String × ℚ, desc_by_score a b || desc_by_score b a := by
    intro a b
    simp only [desc_by_score, Bool.or_eq_true, decide_eq_true_eq]
    exact le_total b.2 a.2
  have hsorted : (((eligible_pairs nodes).mergeSort desc_by_score).Pairwise
      fun a b => b.2 ≤ a.2) :=
    (List.sorted_mergeSort htrans htotal (eligible_pairs nodes)).imp
      fun h => by simpa [desc_by_score] using h
  have hCnil : find_smart_candidates nodes = [] ↔ eligible_pairs nodes = [] := by
    unfold find_smart_candidates
    rw [List.map_eq_nil_iff, ← List.length_eq_zero,
      (List.mergeSort_perm (eligible_pairs nodes) desc_by_score).length_eq,
      List.length_eq_zero]
  by_cases hov : st.cpu_load > th.cpu_max ∨ st.vram_usage_ratio > th.vram_pressure_max
  · have hout : check_server_overload_and_shard th st nodes fresh =
        ((find_smart_candidates nodes).take 3).enum.map
          (fun ki => (ki.2, create_shard_command (fresh ki.1))) := by
      simp [check_server_overload_and_shard, hov]
    refine ⟨?_, fun h => absurd hov h, fun _ => ?_, hperm, hsorted, ?_, ?_, fun g => rfl⟩
    · rw [hout]
      simp only [ne_eq, List.map_eq_nil_iff, hov, true_and]
      have henum : ((find_smart_candidates nodes).take 3).enum = [] ↔
          (find_smart_candidates nodes).take 3 = [] := by
        rw [← List.length_eq_zero, List.enum, List.enumFrom_length,
          List.length_eq_zero]
      rw [henum, List.take_eq_nil_iff]
      simp [hCnil]
    · rw [hout, List.map_map]
      show List.map Prod.snd (List.enumFrom 0 ((find_smart_candidates nodes).take 3)) = _
      exact List.enumFrom_map_snd 0 _
    · intro p hp
      rw [hout] at hp
      obtain ⟨ki, _, rfl⟩ := List.mem_map.mp hp
      exact ⟨fresh ki.1, rfl, rfl, rfl, rfl⟩
    · intro hinj
      rw [hout, List.map_map]
      have h1 : (((find_smart_candidates nodes).take 3).enum.map
            ((fun p : String × ServerCommand => p.2.task_id) ∘
              fun ki : ℕ × String => (ki.2, create_shard_command (fresh ki.1)))) =
          (((find_smart_candidates nodes).take 3).enum.map Prod.fst).map fresh := by
        rw [List.map_map]
        rfl
      rw [h1]
      exact (List.nodup_enum_map_fst _).map hinj
  · have hout0 : check_server_overload_and_shard th st nodes fresh = [] := by
      simp [check_server_overload_and_shard, hov]
    refine ⟨?_, fun _ => hout0, fun h => absurd h hov, hperm, hsorted, ?_, ?_,
      fun g => rfl⟩
    · rw [hout0]
      simp [hov]
    · intro p hp
      rw [hout0] at hp
      exact absurd hp (List.not_mem_nil p)
    · intro _
      rw [hout0]
      exact List.nodup_nil

/-- C3 witness: the spec's thresholds/status trigger overload (CPU 0.9 >
0.85); with an empty registry the command list is empty, and the shard
identifiers are pairwise distinct under the injective generator. -/
theorem c3_overload_sharding_witness :
    Function.Injective exFresh ∧
    (exStatus.cpu_load > exThresholds.cpu_max ∨
      exStatus.vram_usage_ratio > exThresholds.vram_pressure_max) ∧
    check_server_overload_and_shard exThresholds exStatus [] exFresh = [] ∧
    ((check_server_overload_and_shard exThresholds exStatus [] exFresh).map
      fun p => p.2.task_id).Nodup := by
  have hinj : Function.Injective exFresh := by
    intro a b h
    have hlen := congrArg (fun s : String => s.data.length) h
    simpa [exFresh] using hlen
  have hov : exStatus.cpu_load > exThresholds.cpu_max ∨
      exStatus.vram_usage_ratio > exThresholds.vram_pressure_max :=
    Or.inl (by norm_num [exStatus, exThresholds])
  have h := c3_overload_sharding exThresholds exStatus [] exFresh
  have hempty : check_server_overload_and_shard exThresholds exStatus [] exFresh = [] := by
    by_contra hne
    exact (h.1.mp hne).2 rfl
  exact ⟨hinj, hov, hempty, h.2.2.2.2.2.2.1 hinj⟩

/-- A merge under a failure-monad comparator succeeds when no comparison
between the two sides can fail, and its output draws from its inputs. -/
theorem omerge_ok {α : Type} (cmp : α → α → Option Bool) :
    ∀ xs ys : List α, (∀ a ∈ xs, ∀ b ∈ ys, cmp a b ≠ none) →
      ∃ r, omerge cmp xs ys = some r ∧ ∀ a ∈ r, a ∈ xs ∨ a ∈ ys := by
  have key : ∀ (N : ℕ) (xs ys : List α), xs.length + ys.length ≤ N →
      (∀ a ∈ xs, ∀ b ∈ ys, cmp a b ≠ none) →
      ∃ r, omerge cmp xs ys = some r ∧ ∀ a ∈ r, a ∈ xs ∨ a ∈ ys := by
    intro N
    induction N with
    | zero =>
      intro xs ys hlen _
      match xs, ys with
      | [], ys => exact ⟨ys, by simp [omerge], fun a ha => Or.inr ha⟩
      | x :: xs, ys => simp at hlen
    | succ N ih =>
      intro xs ys hlen h
      match xs, ys with
      | [], ys => exact ⟨ys, by simp [omerge], fun a ha => Or.inr ha⟩
      | x :: xs, [] => exact ⟨x :: xs, by simp [omerge], fun a ha => Or.inl ha⟩
      | x :: xs, y :: ys =>
        have hxy : cmp x y ≠ none := h x (by simp) y (by simp)
        cases hcmp : cmp x y with
        | none => exact absurd hcmp hxy
        | some b =>
          cases b with
          | true =>
            obtain ⟨r, hr, hmem⟩ := ih xs (y :: ys)
              (by simp at hlen ⊢; omega)
              (fun a ha c hc => h a (List.mem_cons_of_mem _ ha) c hc)
            refine ⟨x :: r, ?_, ?_⟩
            · simp only [omerge, hcmp, hr, Option.map_some']
            · intro a ha
              rcases List.mem_cons.mp ha with rfl | ha
              · exact Or.inl (List.mem_cons_self _ _)
              · rcases hmem a ha with h1 | h1
                · exact Or.inl (List.mem_cons_of_mem _ h1)
                · exact Or.inr h1
          | false =>
            obtain ⟨r, hr, hmem⟩ := ih (x :: xs) ys
              (by simp at hlen ⊢; omega)
              (fun a ha c hc => h a ha c (List.mem_cons_of_mem _ hc))
            refine ⟨y :: r, ?_, ?_⟩
            · simp only [omerge, hcmp, hr, Option.map_some']
            · intro a ha
              rcases List.mem_cons.mp ha with rfl | ha
              · exact Or.inr (List.mem_cons_self _ _)
              · rcases hmem a ha with h1 | h1
                · exact Or.inl h1
                · exact Or.inr (List.mem_cons_of_mem _ h1)
  intro xs ys h
  exact key (xs.length + ys.length) xs ys le_rfl h

/-- The failure-monad merge sort succeeds when no comparison between list
elements can fail, and its output draws from its input. -/
theorem osort_ok {α : Type} (cmp : α → α → Option Bool)
    (l : List α) (h : ∀ a ∈ l, ∀ b ∈ l, cmp a b ≠ none) :
    ∃ r, osort_by cmp l = some r ∧ ∀ a ∈ r, a ∈ l := by
  have key : ∀ (N : ℕ) (l : List α), l.length ≤ N →
      (∀ a ∈ l, ∀ b ∈ l, cmp a b ≠ none) →
      ∃ r, osort_by cmp l = some r ∧ ∀ a ∈ r, a ∈ l := by
    intro N
    induction N with
    | zero =>
      intro l hlen _
      have hnil : l = [] := List.length_eq_zero.mp (Nat.le_zero.mp hlen)
      subst hnil
      exact ⟨[], by rw [osort_by]; simp, by simp⟩
    | succ N ih =>
      intro l hlen h
      by_cases hl : l.length ≤ 1
      · exact ⟨l, by rw [osort_by]; simp [hl], fun a ha => ha⟩
      · obtain ⟨r1, hr1, hm1⟩ := ih (l.take (l.length / 2))
          (by simp [List.length_take]; omega)
          (fun a ha b hb =>
            h a (List.mem_of_mem_take ha) b (List.mem_of_mem_take hb))
        obtain ⟨r2, hr2, hm2⟩ := ih (l.drop (l.length / 2))
          (by simp [List.length_drop]; omega)
          (fun a ha b hb =>
            h a (List.mem_of_mem_drop ha) b (List.mem_of_mem_drop hb))
        obtain ⟨r, hr, hm⟩ := omerge_ok cmp r1 r2
          (fun a ha b hb =>
            h a (List.mem_of_mem_take (hm1 a ha))
              b (List.mem_of_mem_drop (hm2 b hb)))
        refine ⟨r, ?_, ?_⟩
        · rw [osort_by]
          simp only [dif_neg hl, hr1, hr2]
          exact hr
        · intro a ha
          rcases hm a ha with h1 | h1
          · exact List.mem_of_mem_take (hm1 a h1)
          · exact List.mem_of_mem_drop (hm2 a h1)
  exact key l.length l le_rfl h

/-- C5: under the precondition that every score is numeric (non-NaN), the
descending sort of the candidate ranking never hits a failing comparison —
the model of the `partial_cmp(..).unwrap()` cannot panic; the candidate
lists the program builds satisfy the precondition (their scores come from
total rational arithmetic); and no defensive check exists: a NaN score in
the list does make the sort fail. -/
theorem c5_sort_no_panic :
    (∀ l : List (String × FloatQ), (∀ p ∈ l, p.2 ≠ none) →
      ∃ r, osort_by pcmp_desc l = some r) ∧
    (∀ nodes : List NodeContext,
      ∃ r, osort_by pcmp_desc (eligible_pairs_float nodes) = some r) ∧
    osort_by pcmp_desc [("a", (none : FloatQ)), ("b", (some 1 : FloatQ))] = none := by
  have main : ∀ l : List (String × FloatQ), (∀ p ∈ l, p.2 ≠ none) →
      ∃ r, osort_by pcmp_desc l = some r := by
    intro l hl
    have hcmp : ∀ a ∈ l, ∀ b ∈ l, pcmp_desc a b ≠ none := by
      intro a ha b hb
      obtain ⟨x, hx⟩ := Option.ne_none_iff_exists'.mp (hl a ha)
      obtain ⟨y, hy⟩ := Option.ne_none_iff_exists'.mp (hl b hb)
      simp [pcmp_desc, hx, hy]
    obtain ⟨r, hr, _⟩ := osort_ok pcmp_desc l hcmp
    exact ⟨r, hr⟩
  refine ⟨main, fun nodes => main _ ?_, ?_⟩
  · intro p hp
    obtain ⟨q, _, rfl⟩ := List.mem_map.mp hp
    simp
  · rw [osort_by]
    norm_num
    rw [osort_by, osort_by]
    norm_num [omerge, pcmp_desc]

/-- C5 witness: a concrete two-element all-numeric candidate list sorts
without failure. -/
theorem c5_sort_no_panic_witness :
    (∀ p ∈ [("a", (some 1 : FloatQ)), ("b", (some 2 : FloatQ))], p.2 ≠ none) ∧
    ∃ r, osort_by pcmp_desc
      [("a", (some 1 : FloatQ)), ("b", (some 2 : FloatQ))] = some r :=
  ⟨by simp, c5_sort_no_panic.1 [("a", some 1), ("b", some 2)] (by simp)⟩
